import Mathlib

/-!
Shallow embedding of `src/AgentsAndFunctions/function_to_schema.py`
(the SchemaConverter component: `function_to_schema` and
`is_function_schema_compatible`) together with theorems settling the
specification claims about it.

Modelling conventions:
- A Python function object is modelled by the `Func` structure, which
  records exactly the observations the two source functions make of it:
  `callable(func)`, whether `inspect.signature(func)` succeeds, the
  ordered parameter list (name, annotation, default-presence, kind),
  the return annotation, `func.__name__`, `func.__doc__`, whether
  `inspect.getsource(func)` succeeds and whether the retrieved source
  text contains the substring "input(".
- A type annotation (the `Ann` inductive; field name `ann` stands for
  the source's `param.annotation`) is either the absent marker
  `inspect._empty`, one of the seven classes that are keys of the
  source's `type_map` dict, some other class that is a subclass of one
  of `(tuple, set, complex, datetime.datetime)`, some other class that
  is not, or an object that is not a class at all (so that
  `isinstance(annotation, type)` is false, e.g. a `typing` construct).
- Machine-level Python exceptions are modelled with `Except String`:
  a raised exception that escapes the function is `Except.error`.
-/

namespace FuncSchema

/-- A parameter's type annotation, as observed through the membership,
`isinstance` and `issubclass` tests the source performs on it.
`empty` is `inspect._empty` (no annotation); `pyStr` … `pyNone` are the
seven keys of the source's `type_map`; `rejectedClass s` is any other
class that is a subclass of `(tuple, set, complex, datetime.datetime)`;
`otherClass s` is any other class that is not; `nonType s` is an
object that is not a class.  The `String` argument carries the text
Python would interpolate for the object in an f-string. -/
inductive Ann where
  | empty
  | pyStr
  | pyInt
  | pyFloat
  | pyBool
  | pyList
  | pyDict
  | pyNone
  | rejectedClass (s : String)
  | otherClass (s : String)
  | nonType (s : String)
deriving DecidableEq, Repr

/-- `type_map.get(a, "string")`: the schema type name for an annotation,
defaulting to "string" for anything that is not a key of `type_map`
(including the absent marker `inspect._empty`). -/
def typeMapGet : Ann → String
  | .pyStr => "string"
  | .pyInt => "integer"
  | .pyFloat => "number"
  | .pyBool => "boolean"
  | .pyList => "array"
  | .pyDict => "object"
  | .pyNone => "null"
  | _ => "string"

/-- `a in type_map`: membership of the annotation among the keys of the
source's `type_map` dict. -/
def Ann.inTypeMap : Ann → Bool
  | .pyStr | .pyInt | .pyFloat | .pyBool | .pyList | .pyDict | .pyNone => true
  | _ => false

/-- `isinstance(a, type)`: whether the annotation object is a class.
(`inspect._empty` is itself a class in CPython, so the `empty` case is
`true`; the source only reaches this test after excluding `empty`.) -/
def Ann.isTypeInstance : Ann → Bool
  | .nonType _ => false
  | _ => true

/-- `issubclass(a, (tuple, set, complex, datetime.datetime))`, for
annotations that are classes.  None of the seven `type_map` keys is a
subclass of a reject-listed class. -/
def Ann.isRejectSubclass : Ann → Bool
  | .rejectedClass _ => true
  | _ => false

/-- The text Python interpolates for the annotation object inside an
f-string such as `f"... {param.annotation} ..."`. -/
def reprAnn : Ann → String
  | .empty => "<class inspect._empty>"
  | .pyStr => "<class str>"
  | .pyInt => "<class int>"
  | .pyFloat => "<class float>"
  | .pyBool => "<class bool>"
  | .pyList => "<class list>"
  | .pyDict => "<class dict>"
  | .pyNone => "<class NoneType>"
  | .rejectedClass s => s
  | .otherClass s => s
  | .nonType s => s

/-- `inspect.Parameter.kind`: the five parameter kinds of a Python
signature. -/
inductive ParamKind where
  | positionalOnly
  | positionalOrKeyword
  | keywordOnly
  | varPositional
  | varKeyword
deriving DecidableEq, Repr

/-- One entry of `signature.parameters.values()`: its name, its
annotation (field `ann` models `param.annotation`), whether
`param.default == inspect._empty` is false (`hasDefault`), and its
kind. -/
structure Param where
  name : String
  ann : Ann
  hasDefault : Bool
  kind : ParamKind
deriving DecidableEq, Repr

/-- A Python function object, reduced to the observations the source
makes of it.  `sigOk` is whether `inspect.signature(func)` succeeds
(when it fails it raises `ValueError`); `params` and `retAnn` are the
signature's parameter list (in declaration order; names are distinct
by construction of a Python signature) and return annotation
(`Ann.empty` when absent); `doc` is `func.__doc__` (`none` models
`None`); `sourceOk` is whether `inspect.getsource(func)` succeeds, and
`sourceHasInput` whether the retrieved source text contains the
substring "input(". -/
structure Func where
  name : String
  doc : Option String
  params : List Param
  retAnn : Ann
  isCallable : Bool
  sigOk : Bool
  sourceOk : Bool
  sourceHasInput : Bool
deriving DecidableEq, Repr

/-- The variable parts of the schema dict built by `function_to_schema`.
The constant wrapper fields (`{"type": "function", "function": {...}}`
and the inner `"type": "object"`) are fixed literals in the source and
are omitted.  `properties` is the `parameters` dict of the source: an
insertion-ordered association list from parameter name to schema type
name. -/
structure Schema where
  name : String
  description : String
  properties : List (String × String)
  required : List String
deriving DecidableEq, Repr

/-- Insertion into a Python dict, modelled on an association list:
writing to an existing key updates it in place, a fresh key is appended
at the end (Python 3.7+ dicts preserve insertion order). -/
def dictInsert (d : List (String × String)) (k v : String) : List (String × String) :=
  if d.any (fun q => q.1 == k) then
    d.map (fun q => if q.1 == k then (k, v) else q)
  else d ++ [(k, v)]

/-- `(func.__doc__ or "")`: `None` (and the falsy empty string) becomes
`""`, any other string is kept. -/
def pyDocOrEmpty : Option String → String
  | none => ""
  | some s => s

/-- `function_to_schema(func)`: builds the schema dict.
Raises (models `ValueError`) exactly when `inspect.signature` fails;
otherwise maps each parameter's annotation through
`type_map.get(·, "string")` into the insertion-ordered `parameters`
dict, and collects as `required` the names of the parameters whose
default is `inspect._empty`, in order.  (The `except KeyError` handler
in the source is dead code: `dict.get` with a default never raises
`KeyError`.)  The error text models
`f"Failed to get signature for function {func.__name__}: ..."`. -/
def function_to_schema (f : Func) : Except String Schema :=
  if f.sigOk then
    Except.ok
      { name := f.name
        description := (pyDocOrEmpty f.doc).trim
        properties :=
          f.params.foldl (fun d p => dictInsert d p.name (typeMapGet p.ann)) []
        required := (f.params.filter (fun p => !p.hasDefault)).map Param.name }
  else
    Except.error ("Failed to get signature for function " ++ f.name)

/-- Reason string for a parameter with no annotation. -/
def msgMissing (n : String) : String :=
  "Parameter \x27" ++ n ++ "\x27 is missing a type annotation."

/-- Reason string for a parameter whose annotation is not a class. -/
def msgUnrecognized (n a : String) : String :=
  "Parameter \x27" ++ n ++ "\x27 has an unrecognized type annotation: " ++ a ++ "."

/-- Reason string for a parameter whose annotation is a reject-listed
class. -/
def msgUnsupported (n a : String) : String :=
  "Parameter \x27" ++ n ++ "\x27 has an unsupported type: " ++ a ++ "."

/-- Reason string appended once when any parameter is variadic. -/
def varMsg : String :=
  "Function uses *args or **kwargs, which are not supported."

/-- Reason string appended when the source text contains "input(". -/
def inputMsg : String :=
  "Function contains an input() call, which requires user interaction."

/-- Reason string for an unsupported return annotation. -/
def msgReturn (a : String) : String :=
  "Return type \x27" ++ a ++ "\x27 is unsupported."

/-- Step 3 of `is_function_schema_compatible`: the zero-or-one reason
contributed by one parameter.  The source's `if/elif` chain: missing
annotation; else, if the annotation is not a `type_map` key: not a
class at all → unrecognized; a reject-listed class → unsupported;
any other class is accepted silently. -/
def paramReason (p : Param) : Option String :=
  if p.ann = Ann.empty then
    some (msgMissing p.name)
  else if !p.ann.inTypeMap then
    if !p.ann.isTypeInstance then
      some (msgUnrecognized p.name (reprAnn p.ann))
    else if p.ann.isRejectSubclass then
      some (msgUnsupported p.name (reprAnn p.ann))
    else none
  else none

/-- Whether a parameter's kind is in
`{inspect.Parameter.VAR_POSITIONAL, inspect.Parameter.VAR_KEYWORD}`. -/
def Param.isVariadic (p : Param) : Bool :=
  p.kind = ParamKind.varPositional || p.kind = ParamKind.varKeyword

/-- Step 6 of `is_function_schema_compatible`: the zero-or-one reason
contributed by the return annotation.  Appended when the annotation is
present, not a `type_map` key, and not an accepted class (a class
outside the reject-list). -/
def retReason (f : Func) : Option String :=
  if !f.retAnn.inTypeMap ∧ f.retAnn ≠ Ann.empty then
    if f.retAnn.isTypeInstance ∧ !f.retAnn.isRejectSubclass then none
    else some (msgReturn (reprAnn f.retAnn))
  else none

/-- The `disqualifiers` list accumulated by steps 3–6 of
`is_function_schema_compatible`, in the source's append order:
per-parameter reasons in parameter order, then the single variadic
reason, then the interactive-input reason, then the return-type
reason. -/
def disqualifiersOf (f : Func) : List String :=
  f.params.filterMap paramReason
    ++ (if f.params.any Param.isVariadic then [varMsg] else [])
    ++ (if f.sourceHasInput then [inputMsg] else [])
    ++ (retReason f).toList

/-- The union return type of `is_function_schema_compatible`:
`bool`, `(bool, str)` or `(bool, dict)`. -/
inductive CompatResult where
  | plain (b : Bool)
  | withReason (b : Bool) (r : String)
  | withSchema (b : Bool) (s : Schema)
deriving DecidableEq, Repr

/-- The compatibility boolean carried by any of the three return
shapes. -/
def CompatResult.toBool : CompatResult → Bool
  | .plain b => b
  | .withReason b _ => b
  | .withSchema b _ => b

/-- The `if is_compatible and and_parse` branch of the source: run
`function_to_schema(func)` under `try`; on success return
`(True, schema)`, on any exception return the wrapping reason (verbose)
or plain `False` instead of propagating the exception. -/
def andParseStep (f : Func) (verbose : Bool) : CompatResult :=
  match function_to_schema f with
  | .ok s => .withSchema true s
  | .error e =>
    if verbose then
      .withReason false ("Function is structurally valid but failed to convert: " ++ e)
    else .plain false

/-- Models the exception (`OSError` or `TypeError`) raised by
`inspect.getsource(func)` when the function's source text is not
retrievable (e.g. a built-in such as `ord`, or an `exec`-defined
function). -/
def getsourceFailMsg (n : String) : String :=
  "could not get source code for " ++ n

/-- `is_function_schema_compatible(func, and_parse, verbose)`.
An `Except.error` result models an exception escaping the call: the
only such path is the unguarded `inspect.getsource(func)` at step 5,
reached when the input is callable and its signature is available.
Steps 3 and 4 only append to the local `disqualifiers` list and cannot
raise, so hoisting the step-5 raise check before computing the (pure)
list is semantically faithful. -/
def is_function_schema_compatible (f : Func) (and_parse verbose : Bool) :
    Except String CompatResult :=
  if !f.isCallable then
    Except.ok (if verbose then .withReason false "Provided object is not a function." else .plain false)
  else if !f.sigOk then
    Except.ok (if verbose then
      .withReason false ("Could not retrieve signature for " ++ f.name ++ ".")
    else .plain false)
  else if !f.sourceOk then
    Except.error (getsourceFailMsg f.name)
  else
    let disqualifiers := disqualifiersOf f
    let is_compatible := disqualifiers.isEmpty
    if is_compatible && and_parse then
      Except.ok (andParseStep f verbose)
    else if verbose then
      Except.ok (.withReason is_compatible (String.intercalate "; " disqualifiers))
    else
      Except.ok (.plain is_compatible)

/-- The six annotations the specification calls the supported set
{string, integer, number, boolean, array, object} (the `null` mapping
exists in `type_map` but is outside this set). -/
def supportedAnn (a : Ann) : Bool :=
  match a with
  | .pyStr | .pyInt | .pyFloat | .pyBool | .pyList | .pyDict => true
  | _ => false

/-! ### Concrete inputs used by witnesses and counterexamples -/

/-- `def add_numbers(a: float, b: float): "Adds two numbers."` —
the specification's worked example. -/
def addNumbers : Func :=
  { name := "add_numbers"
    doc := some "Adds two numbers."
    params := [
      { name := "a", ann := .pyFloat, hasDefault := false, kind := .positionalOrKeyword },
      { name := "b", ann := .pyFloat, hasDefault := false, kind := .positionalOrKeyword } ]
    retAnn := .empty
    isCallable := true
    sigOk := true
    sourceOk := true
    sourceHasInput := false }

/-- `def f(x): ...` — one untyped parameter, from the specification's
second worked example. -/
def untypedX : Func :=
  { name := "f"
    doc := none
    params := [
      { name := "x", ann := .empty, hasDefault := false, kind := .positionalOrKeyword } ]
    retAnn := .empty
    isCallable := true
    sigOk := true
    sourceOk := true
    sourceHasInput := false }

/-- The built-in `ord`: callable, `inspect.signature(ord)` succeeds via
its text signature, but `inspect.getsource(ord)` raises `TypeError`
(built-ins carry no retrievable source). -/
def ordFunc : Func :=
  { name := "ord"
    doc := some "Return the Unicode code point for a one-character string."
    params := [
      { name := "c", ann := .empty, hasDefault := false, kind := .positionalOnly } ]
    retAnn := .empty
    isCallable := true
    sigOk := true
    sourceOk := false
    sourceHasInput := false }

/-- `def t(pt: tuple): ...` — one parameter annotated with the
reject-listed class `tuple`. -/
def tupleFunc : Func :=
  { name := "t"
    doc := none
    params := [
      { name := "pt", ann := .rejectedClass "<class tuple>", hasDefault := false,
        kind := .positionalOrKeyword } ]
    retAnn := .empty
    isCallable := true
    sigOk := true
    sourceOk := true
    sourceHasInput := false }

/-- `def v(*args): ...` — one variadic-positional parameter. -/
def variadicFunc : Func :=
  { name := "v"
    doc := none
    params := [
      { name := "args", ann := .empty, hasDefault := false, kind := .varPositional } ]
    retAnn := .empty
    isCallable := true
    sigOk := true
    sourceOk := true
    sourceHasInput := false }

/-- `def r() -> tuple: ...` — a reject-listed return annotation. -/
def retTupleFunc : Func :=
  { name := "r"
    doc := none
    params := []
    retAnn := .rejectedClass "<class tuple>"
    isCallable := true
    sigOk := true
    sourceOk := true
    sourceHasInput := false }

/-- A callable whose signature cannot be introspected
(`inspect.signature` raises `ValueError`). -/
def noSigFunc : Func :=
  { name := "g"
    doc := none
    params := []
    retAnn := .empty
    isCallable := true
    sigOk := false
    sourceOk := false
    sourceHasInput := false }

/-- A non-callable object handed to the checker. -/
def notCallableObj : Func :=
  { name := "obj"
    doc := none
    params := []
    retAnn := .empty
    isCallable := false
    sigOk := false
    sourceOk := false
    sourceHasInput := false }

/-- Two successive applications of the checker to the same function,
paired: the object claim C9 speaks about. -/
def runTwice (f : Func) (and_parse verbose : Bool) :
    Except String CompatResult × Except String CompatResult :=
  (is_function_schema_compatible f and_parse verbose,
   is_function_schema_compatible f and_parse verbose)

/-! ### Helper lemmas -/

/-- Two strings whose first characters differ are distinct. -/
theorem ne_of_head (s t : String) (c d : Char)
    (hs : s.data.head? = some c) (ht : t.data.head? = some d)
    (hcd : c ≠ d) : s ≠ t := by
  intro he
  rw [he, ht] at hs
  exact hcd (Option.some.inj hs).symm

theorem head_msgMissing (n : String) : (msgMissing n).data.head? = some 'P' := rfl

theorem head_msgUnrecognized (n a : String) :
    (msgUnrecognized n a).data.head? = some 'P' := rfl

theorem head_msgUnsupported (n a : String) :
    (msgUnsupported n a).data.head? = some 'P' := rfl

theorem head_varMsg : varMsg.data.head? = some 'F' := rfl

theorem head_inputMsg : inputMsg.data.head? = some 'F' := rfl

theorem head_msgReturn (a : String) : (msgReturn a).data.head? = some 'R' := rfl

/-- A string with a first character is not empty. -/
theorem ne_empty_of_head (s : String) (c : Char) (h : s.data.head? = some c) :
    s ≠ "" := by
  intro he
  rw [he] at h
  exact Option.noConfusion h

/-- Any reason produced by the per-parameter check is one of the three
parameter message forms. -/
theorem paramReason_shape (p : Param) (s : String) (h : paramReason p = some s) :
    s = msgMissing p.name ∨ s = msgUnrecognized p.name (reprAnn p.ann) ∨
      s = msgUnsupported p.name (reprAnn p.ann) := by
  unfold paramReason at h
  split_ifs at h <;> simp_all

/-- Any reason produced by the return-annotation check is the return
message for the function's return annotation. -/
theorem retReason_shape (f : Func) (s : String) (h : retReason f = some s) :
    s = msgReturn (reprAnn f.retAnn) := by
  unfold retReason at h
  split_ifs at h
  simp_all

/-- Every parameter reason starts with the character `P`. -/
theorem paramReason_head (p : Param) (s : String) (h : paramReason p = some s) :
    s.data.head? = some 'P' := by
  rcases paramReason_shape p s h with h' | h' | h' <;> subst h'
  · exact head_msgMissing _
  · exact head_msgUnrecognized _ _
  · exact head_msgUnsupported _ _

/-- Every accumulated disqualifier is a non-empty string. -/
theorem disqualifier_ne_empty (f : Func) (s : String)
    (h : s ∈ disqualifiersOf f) : s ≠ "" := by
  unfold disqualifiersOf at h
  simp only [List.mem_append, List.mem_filterMap] at h
  rcases h with ((⟨p, _, hp⟩ | h) | h) | h
  · exact ne_empty_of_head s 'P' (paramReason_head p s hp)
  · have : s = varMsg := by
      by_cases hv : f.params.any Param.isVariadic <;> simp [hv] at h
      exact h
    exact this ▸ ne_empty_of_head _ 'F' head_varMsg
  · have : s = inputMsg := by
      by_cases hv : f.sourceHasInput <;> simp [hv] at h
      exact h
    exact this ▸ ne_empty_of_head _ 'F' head_inputMsg
  · rw [Option.mem_toList] at h
    exact retReason_shape f s h ▸ ne_empty_of_head _ 'R' (head_msgReturn _)

/-- `String.intercalate.go` only makes its accumulator longer. -/
theorem intercalate_go_length (s : String) :
    ∀ (l : List String) (acc : String),
      acc.length ≤ (String.intercalate.go acc s l).length
  | [], acc => by simp [String.intercalate.go]
  | a :: as, acc => by
    have h1 : acc.length ≤ (acc ++ s ++ a).length := by
      simp [String.length_append]
      omega
    have h2 := intercalate_go_length s as (acc ++ s ++ a)
    simp only [String.intercalate.go]
    omega

/-- Joining a list that contains at least one (hence a first) non-empty
string with `"; "` gives a non-empty string. -/
theorem intercalate_ne_empty (l : List String) (hne : l ≠ [])
    (h : ∀ s ∈ l, s ≠ "") : String.intercalate "; " l ≠ "" := by
  match l with
  | [] => exact absurd rfl hne
  | a :: as =>
    have ha : a ≠ "" := h a (List.mem_cons_self a as)
    have halen : 0 < a.length := by
      have : a.data ≠ [] := fun hd => ha (String.ext (hd.trans rfl))
      have : 0 < a.data.length := List.length_pos.mpr this
      exact this
    have hlen : a.length ≤ (String.intercalate "; " (a :: as)).length := by
      show a.length ≤ (String.intercalate.go a "; " as).length
      exact intercalate_go_length "; " as a
    intro he
    rw [he] at hlen
    simp at hlen
    omega

/-- Unfolding of the main checker on an input that is callable, has an
introspectable signature and retrievable source: the result is an
ordinary return value determined by the accumulated disqualifier
list. -/
theorem compat_run (f : Func) (ap v : Bool) (hc : f.isCallable = true)
    (hs : f.sigOk = true) (hsrc : f.sourceOk = true) :
    is_function_schema_compatible f ap v =
      Except.ok (
        if (disqualifiersOf f).isEmpty && ap then andParseStep f v
        else if v then
          CompatResult.withReason (disqualifiersOf f).isEmpty
            (String.intercalate "; " (disqualifiersOf f))
        else CompatResult.plain (disqualifiersOf f).isEmpty) := by
  simp only [is_function_schema_compatible, hc, hs, hsrc, Bool.not_true,
    Bool.false_eq_true, if_false, List.isEmpty_eq_true, Bool.and_eq_true,
    decide_eq_true_eq]
  split_ifs <;> simp_all [List.isEmpty_eq_true]

/-- Folding Python-dict insertion over parameters with pairwise distinct
names (as every Python signature has) appends one fresh key per
parameter, in parameter order. -/
theorem foldl_dictInsert (g : Param → String) (ps : List Param)
    (acc : List (String × String))
    (hnd : (ps.map Param.name).Nodup)
    (hacc : ∀ p ∈ ps, ∀ q ∈ acc, q.1 ≠ p.name) :
    ps.foldl (fun d p => dictInsert d p.name (g p)) acc
      = acc ++ ps.map (fun p => (p.name, g p)) := by
  induction ps generalizing acc with
  | nil => simp
  | cons p ps ih =>
    simp only [List.foldl_cons]
    have hany : acc.any (fun q => q.1 == p.name) = false := by
      rw [List.any_eq_false]
      intro q hq
      simpa using hacc p (List.mem_cons_self p ps) q hq
    have hstep : dictInsert acc p.name (g p) = acc ++ [(p.name, g p)] := by
      unfold dictInsert
      rw [hany]
      simp
    rw [hstep]
    rw [List.map_cons, List.nodup_cons] at hnd
    rw [ih (acc ++ [(p.name, g p)]) hnd.2 ?_]
    · simp
    · intro p' hp' q hq
      rcases List.mem_append.mp hq with h | h
      · exact hacc p' (List.mem_cons_of_mem p hp') q h
      · rw [List.mem_singleton] at h
        subst h
        intro hne
        have : p.name = p'.name := hne
        exact hnd.1 (this ▸ List.mem_map_of_mem Param.name hp')

/-- `function_to_schema` on a function with an introspectable signature
and distinct parameter names: the full shape of the produced schema. -/
theorem function_to_schema_run (f : Func) (hs : f.sigOk = true)
    (hnd : (f.params.map Param.name).Nodup) :
    function_to_schema f = Except.ok
      { name := f.name
        description := (pyDocOrEmpty f.doc).trim
        properties := f.params.map (fun p => (p.name, typeMapGet p.ann))
        required := (f.params.filter (fun p => !p.hasDefault)).map Param.name } := by
  unfold function_to_schema
  rw [if_pos hs]
  congr 1
  rw [Schema.mk.injEq]
  refine ⟨rfl, rfl, ?_, rfl⟩
  exact foldl_dictInsert _ f.params [] hnd (by simp)

theorem head_wrapMsg (e : String) :
    ("Function is structurally valid but failed to convert: " ++ e).data.head?
      = some 'F' := rfl

theorem head_sigMsg (n : String) :
    ("Could not retrieve signature for " ++ n ++ ".").data.head? = some 'C' := rfl

/-- The return-annotation check fires exactly on a present annotation
that is not a class or is a reject-listed class. -/
theorem retReason_some (f : Func) (hne : f.retAnn ≠ Ann.empty)
    (hcase : f.retAnn.isTypeInstance = false ∨ f.retAnn.isRejectSubclass = true) :
    retReason f = some (msgReturn (reprAnn f.retAnn)) := by
  unfold retReason
  cases ha : f.retAnn <;> rw [ha] at hne hcase <;>
    first
      | rfl
      | exact absurd rfl hne
      | (rcases hcase with hcase | hcase <;>
          simp [Ann.isTypeInstance, Ann.isRejectSubclass] at hcase)

/-- An absent return annotation contributes no reason. -/
theorem retReason_none_of_empty (f : Func) (ha : f.retAnn = Ann.empty) :
    retReason f = none := by
  unfold retReason
  rw [ha]
  rfl

/-- The guarded conversion step on a conversion failure: the error is
wrapped into an incompatible value. -/
theorem andParseStep_error (f : Func) (v : Bool) (e : String)
    (he : function_to_schema f = Except.error e) :
    andParseStep f v =
      (if v then
        CompatResult.withReason false
          ("Function is structurally valid but failed to convert: " ++ e)
      else CompatResult.plain false) := by
  unfold andParseStep
  rw [he]

/-- The guarded conversion step on a successful conversion returns the
schema. -/
theorem andParseStep_ok (f : Func) (v : Bool) (s : Schema)
    (hok : function_to_schema f = Except.ok s) :
    andParseStep f v = CompatResult.withSchema true s := by
  unfold andParseStep
  rw [hok]

/-- A parameter annotated with a reject-listed class contributes exactly
the unsupported-type reason. -/
theorem paramReason_rejected (p : Param) (c : String)
    (ha : p.ann = Ann.rejectedClass c) :
    paramReason p = some (msgUnsupported p.name c) := by
  unfold paramReason
  rw [ha]
  rfl

/-- A reason contributed by some parameter is in the accumulated
disqualifier list. -/
theorem mem_disqualifiers_of_param (f : Func) (p : Param) (s : String)
    (hp : p ∈ f.params) (hr : paramReason p = some s) :
    s ∈ disqualifiersOf f := by
  unfold disqualifiersOf
  refine List.mem_append_left _ (List.mem_append_left _ (List.mem_append_left _ ?_))
  exact List.mem_filterMap.mpr ⟨p, hp, hr⟩

/-- On a callable, introspectable input with retrievable source and a
non-empty disqualifier list, the checker returns the incompatible
verdict: the joined reasons when verbose, the plain boolean
otherwise (the `and_parse` conversion branch is not taken). -/
theorem compat_incompatible (f : Func) (ap v : Bool)
    (hc : f.isCallable = true) (hs : f.sigOk = true) (hsrc : f.sourceOk = true)
    (hne : disqualifiersOf f ≠ []) :
    is_function_schema_compatible f ap v =
      Except.ok (
        if v then
          CompatResult.withReason false (String.intercalate "; " (disqualifiersOf f))
        else CompatResult.plain false) := by
  rw [compat_run f ap v hc hs hsrc]
  have hemp : (disqualifiersOf f).isEmpty = false := by
    simp [List.isEmpty_iff, hne]
  rw [hemp]
  simp

/-- No string whose first character is not `P` occurs among the
per-parameter reasons. -/
theorem not_mem_paramReasons (f : Func) (s : String)
    (hhead : s.data.head? ≠ some 'P') :
    s ∉ f.params.filterMap paramReason := by
  intro h
  rcases List.mem_filterMap.mp h with ⟨p, _, hp⟩
  exact hhead (paramReason_head p s hp)

/-- No string whose first character is not `R` occurs in the
return-annotation segment of the disqualifier list. -/
theorem not_mem_retSegment (f : Func) (s : String)
    (hhead : s.data.head? ≠ some 'R') :
    s ∉ (retReason f).toList := by
  intro h
  rw [Option.mem_toList] at h
  exact hhead (retReason_shape f s h ▸ head_msgReturn (reprAnn f.retAnn))

/-! ### Claim theorems -/

/-- C1: for every function all of whose parameters carry annotations in
the supported set {string, integer, number, boolean, array, object},
`function_to_schema` returns a schema whose `properties` keys are
exactly the parameter names in input order, each mapped to its
TypeMapping schema type, and whose `required` is exactly the list of
parameter names without defaults, in input order. -/
theorem claim_C1_convert_shape (f : Func)
    (hs : f.sigOk = true)
    (hnd : (f.params.map Param.name).Nodup)
    (hsupp : ∀ p ∈ f.params, supportedAnn p.ann = true) :
    ∃ s, function_to_schema f = Except.ok s ∧
      s.properties = f.params.map (fun p => (p.name, typeMapGet p.ann)) ∧
      s.properties.map Prod.fst = f.params.map Param.name ∧
      s.required = (f.params.filter (fun p => !p.hasDefault)).map Param.name ∧
      ∀ q ∈ s.properties,
        q.2 ∈ ["string", "integer", "number", "boolean", "array", "object"] := by
  refine ⟨_, function_to_schema_run f hs hnd, rfl, by simp, rfl, ?_⟩
  intro q hq
  rcases List.mem_map.mp hq with ⟨p, hp, hpq⟩
  have := hsupp p hp
  cases ha : p.ann <;> rw [ha] at this <;> simp [supportedAnn] at this <;>
    subst hpq <;> rw [ha] <;> simp [typeMapGet]

/-- C1 witness: the worked `add_numbers` example. -/
theorem claim_C1_convert_shape_witness :
    ∃ s, function_to_schema addNumbers = Except.ok s ∧
      s.properties = addNumbers.params.map (fun p => (p.name, typeMapGet p.ann)) ∧
      s.properties.map Prod.fst = addNumbers.params.map Param.name ∧
      s.required = (addNumbers.params.filter (fun p => !p.hasDefault)).map Param.name ∧
      ∀ q ∈ s.properties,
        q.2 ∈ ["string", "integer", "number", "boolean", "array", "object"] :=
  claim_C1_convert_shape addNumbers rfl (by decide) (by decide)

/-- C6: for every function whose signature can be introspected,
`function_to_schema` succeeds regardless of parameter annotations;
every unannotated parameter and every annotation outside the
TypeMapping table is mapped to schema type "string"; conversion fails
exactly when the signature cannot be obtained. -/
theorem claim_C6_convert_total (f : Func) :
    (f.sigOk = true → (f.params.map Param.name).Nodup →
      ∃ s, function_to_schema f = Except.ok s ∧
        s.properties = f.params.map (fun p => (p.name, typeMapGet p.ann)))
    ∧ (∀ a : Ann, a.inTypeMap = false → typeMapGet a = "string")
    ∧ (f.sigOk = false →
        function_to_schema f =
          Except.error ("Failed to get signature for function " ++ f.name)) := by
  refine ⟨fun hs hnd => ⟨_, function_to_schema_run f hs hnd, rfl⟩, ?_, fun hs => ?_⟩
  · intro a ha
    cases a <;> first | rfl | simp [Ann.inTypeMap] at ha
  · unfold function_to_schema
    rw [if_neg]
    simp [hs]

/-- C6 witness: conversion succeeds on the untyped-parameter function
(mapping the absent annotation to "string") and fails on the callable
with no introspectable signature. -/
theorem claim_C6_convert_total_witness :
    (∃ s, function_to_schema untypedX = Except.ok s ∧
      s.properties = untypedX.params.map (fun p => (p.name, typeMapGet p.ann)))
    ∧ typeMapGet Ann.empty = "string"
    ∧ function_to_schema noSigFunc =
        Except.error ("Failed to get signature for function " ++ noSigFunc.name) :=
  ⟨(claim_C6_convert_total untypedX).1 rfl (by decide),
   (claim_C6_convert_total untypedX).2.1 Ann.empty rfl,
   (claim_C6_convert_total noSigFunc).2.2 rfl⟩

/-- C9: the checker is deterministic and keeps no state across calls:
two successive applications to the same function, with the same flags,
return the same result. -/
theorem claim_C9_idempotent (f : Func) (and_parse verbose : Bool) :
    (runTwice f and_parse verbose).1 = (runTwice f and_parse verbose).2 := rfl

/-- C10: a reject-listed parameter annotation does not make
`function_to_schema` fail and is not treated specially by it: the
parameter appears in `properties` with schema type "string", exactly
like any other unmapped annotation — even though
`is_function_schema_compatible` disqualifies the same function. -/
theorem claim_C10_convert_permissive (f : Func) (p : Param) (c : String)
    (hs : f.sigOk = true) (hnd : (f.params.map Param.name).Nodup)
    (hp : p ∈ f.params) (ha : p.ann = Ann.rejectedClass c) :
    (∃ s, function_to_schema f = Except.ok s ∧ (p.name, "string") ∈ s.properties)
    ∧ typeMapGet (Ann.rejectedClass c) = typeMapGet (Ann.otherClass c)
    ∧ typeMapGet (Ann.rejectedClass c) = "string"
    ∧ (f.isCallable = true → f.sourceOk = true → ∀ ap v,
        ∃ r, is_function_schema_compatible f ap v = Except.ok r ∧
          r.toBool = false) := by
  refine ⟨⟨_, function_to_schema_run f hs hnd, ?_⟩, rfl, rfl, fun hc hsrc ap v => ?_⟩
  · have : (p.name, "string") = (p.name, typeMapGet p.ann) := by rw [ha]; rfl
    rw [this]
    exact List.mem_map_of_mem _ hp
  · have hne : disqualifiersOf f ≠ [] := by
      intro hnil
      have hmem := mem_disqualifiers_of_param f p _ hp (paramReason_rejected p c ha)
      rw [hnil] at hmem
      exact List.not_mem_nil _ hmem
    refine ⟨_, compat_incompatible f ap v hc hs hsrc hne, ?_⟩
    by_cases hv : v <;> simp [hv, CompatResult.toBool]

/-- C10 witness: the tuple-annotated function. -/
theorem claim_C10_convert_permissive_witness :
    (∃ s, function_to_schema tupleFunc = Except.ok s ∧
      ("pt", "string") ∈ s.properties)
    ∧ typeMapGet (Ann.rejectedClass "<class tuple>")
        = typeMapGet (Ann.otherClass "<class tuple>")
    ∧ typeMapGet (Ann.rejectedClass "<class tuple>") = "string"
    ∧ (∃ r, is_function_schema_compatible tupleFunc true true = Except.ok r ∧
        r.toBool = false) := by
  have h := claim_C10_convert_permissive tupleFunc
    { name := "pt", ann := .rejectedClass "<class tuple>", hasDefault := false,
      kind := .positionalOrKeyword } "<class tuple>" rfl (by decide) (by decide) rfl
  exact ⟨h.1, h.2.1, h.2.2.1, h.2.2.2 rfl rfl true true⟩

/-- C3 counterexample: the claim "failure to introspect the signature is
the only condition that aborts" fails on the code.  The built-in `ord`
is callable and its signature is introspectable, yet the unguarded
`inspect.getsource(func)` at step 5 raises, so the call aborts instead
of returning a value. -/
theorem claim_C3_counterexample :
    ordFunc.isCallable = true ∧ ordFunc.sigOk = true ∧
    is_function_schema_compatible ordFunc false false =
      Except.error (getsourceFailMsg "ord") :=
  ⟨rfl, rfl, rfl⟩

/-- C3 (amended): for every callable input whose signature can be
introspected and whose source text can be retrieved, the checker
returns an ordinary value; non-callable and non-introspectable inputs
also return by value; the only aborting condition is the unguarded
source-retrieval step. -/
theorem claim_C3_value_based (f : Func) (ap v : Bool) :
    (f.isCallable = true → f.sigOk = true → f.sourceOk = true →
      ∃ r, is_function_schema_compatible f ap v = Except.ok r)
    ∧ (f.isCallable = false →
        ∃ r, is_function_schema_compatible f ap v = Except.ok r)
    ∧ (f.sigOk = false →
        ∃ r, is_function_schema_compatible f ap v = Except.ok r)
    ∧ (f.isCallable = true → f.sigOk = true → f.sourceOk = false →
        is_function_schema_compatible f ap v =
          Except.error (getsourceFailMsg f.name)) := by
  refine ⟨fun hc hs hsrc => ⟨_, compat_run f ap v hc hs hsrc⟩,
    fun hc => ?_, fun hs => ?_, fun hc hs hsrc => ?_⟩
  · exact ⟨(if v then
        CompatResult.withReason false "Provided object is not a function."
      else CompatResult.plain false),
      by simp [is_function_schema_compatible, hc]⟩
  · by_cases hcall : f.isCallable
    · exact ⟨(if v then
          CompatResult.withReason false
            ("Could not retrieve signature for " ++ f.name ++ ".")
        else CompatResult.plain false),
        by simp [is_function_schema_compatible, hcall, hs]⟩
    · exact ⟨(if v then
          CompatResult.withReason false "Provided object is not a function."
        else CompatResult.plain false),
        by simp [is_function_schema_compatible, hcall]⟩
  · simp [is_function_schema_compatible, hc, hs, hsrc]

/-- C3 witness: value-based returns on the worked example, a
non-callable object and a signature-less callable; the abort on
`ord`. -/
theorem claim_C3_value_based_witness :
    (∃ r, is_function_schema_compatible addNumbers false false = Except.ok r)
    ∧ (∃ r, is_function_schema_compatible notCallableObj false false = Except.ok r)
    ∧ (∃ r, is_function_schema_compatible noSigFunc false false = Except.ok r)
    ∧ is_function_schema_compatible ordFunc true true =
        Except.error (getsourceFailMsg "ord") :=
  ⟨(claim_C3_value_based addNumbers false false).1 rfl rfl rfl,
   (claim_C3_value_based notCallableObj false false).2.1 rfl,
   (claim_C3_value_based noSigFunc false false).2.2.1 rfl,
   (claim_C3_value_based ordFunc true true).2.2.2 rfl rfl rfl⟩

/-- C4: a function with a parameter annotated with a reject-listed
class is reported incompatible, and the accumulated reasons (joined
into the verbose report) contain the unsupported-type reason naming
that parameter. -/
theorem claim_C4_reject_param (f : Func) (p : Param) (c : String) (ap v : Bool)
    (hc : f.isCallable = true) (hs : f.sigOk = true) (hsrc : f.sourceOk = true)
    (hp : p ∈ f.params) (ha : p.ann = Ann.rejectedClass c) :
    msgUnsupported p.name c ∈ disqualifiersOf f ∧
    is_function_schema_compatible f ap v =
      Except.ok (
        if v then
          CompatResult.withReason false (String.intercalate "; " (disqualifiersOf f))
        else CompatResult.plain false) := by
  have hmem := mem_disqualifiers_of_param f p _ hp (paramReason_rejected p c ha)
  have hne : disqualifiersOf f ≠ [] := by
    intro hnil
    rw [hnil] at hmem
    exact List.not_mem_nil _ hmem
  exact ⟨hmem, compat_incompatible f ap v hc hs hsrc hne⟩

/-- C4 witness: the tuple-annotated function, verbose. -/
theorem claim_C4_reject_param_witness :
    msgUnsupported "pt" "<class tuple>" ∈ disqualifiersOf tupleFunc ∧
    is_function_schema_compatible tupleFunc false true =
      Except.ok (CompatResult.withReason false
        (String.intercalate "; " (disqualifiersOf tupleFunc))) := by
  have h := claim_C4_reject_param tupleFunc
    { name := "pt", ann := .rejectedClass "<class tuple>", hasDefault := false,
      kind := .positionalOrKeyword } "<class tuple>" false true
    rfl rfl rfl (by decide) rfl
  exact ⟨h.1, by simpa using h.2⟩

/-- C5: a function with a variadic-positional or variadic-keyword
parameter is reported incompatible with exactly one variadic-related
reason, however many variadic or other parameters it has. -/
theorem claim_C5_variadic (f : Func) (ap v : Bool)
    (hc : f.isCallable = true) (hs : f.sigOk = true) (hsrc : f.sourceOk = true)
    (hvar : ∃ p ∈ f.params,
      p.kind = ParamKind.varPositional ∨ p.kind = ParamKind.varKeyword) :
    (disqualifiersOf f).count varMsg = 1 ∧
    is_function_schema_compatible f ap v =
      Except.ok (
        if v then
          CompatResult.withReason false (String.intercalate "; " (disqualifiersOf f))
        else CompatResult.plain false) := by
  have hany : f.params.any Param.isVariadic = true := by
    rcases hvar with ⟨p, hp, hk⟩
    refine List.any_eq_true.mpr ⟨p, hp, ?_⟩
    rcases hk with hk | hk <;> simp [Param.isVariadic, hk]
  have hcount : (disqualifiersOf f).count varMsg = 1 := by
    unfold disqualifiersOf
    rw [hany]
    rw [List.count_append, List.count_append, List.count_append]
    have h1 : (f.params.filterMap paramReason).count varMsg = 0 :=
      List.count_eq_zero.mpr (not_mem_paramReasons f varMsg (by simp [head_varMsg]))
    have h3 : (if f.sourceHasInput then [inputMsg] else []).count varMsg = 0 := by
      by_cases hin : f.sourceHasInput <;> simp only [hin, if_true, if_false]
      · decide
      · rfl
    have h4 : (retReason f).toList.count varMsg = 0 :=
      List.count_eq_zero.mpr (not_mem_retSegment f varMsg (by simp [head_varMsg]))
    rw [h1, h3, h4]
    simp
  have hne : disqualifiersOf f ≠ [] := by
    intro hnil
    rw [hnil] at hcount
    simp at hcount
  exact ⟨hcount, compat_incompatible f ap v hc hs hsrc hne⟩

/-- C5 witness: the `*args` function, non-verbose. -/
theorem claim_C5_variadic_witness :
    (disqualifiersOf variadicFunc).count varMsg = 1 ∧
    is_function_schema_compatible variadicFunc false false =
      Except.ok (CompatResult.plain false) := by
  have h := claim_C5_variadic variadicFunc false false rfl rfl rfl (by decide)
  exact ⟨h.1, by simpa using h.2⟩

/-- C8: when a function is judged compatible and `and_parse` is
requested, the checker runs the conversion inside the guarded step;
that step turns any conversion failure into an incompatible result
with a wrapping reason (verbose) or plain `False`, never a propagated
exception; and on the compatible path the checker always returns a
value. -/
theorem claim_C8_wrap_conversion_failure (f : Func) (v : Bool) :
    (f.isCallable = true → f.sigOk = true → f.sourceOk = true →
      disqualifiersOf f = [] →
      is_function_schema_compatible f true v = Except.ok (andParseStep f v))
    ∧ (∀ e, function_to_schema f = Except.error e →
        andParseStep f v =
          (if v then
            CompatResult.withReason false
              ("Function is structurally valid but failed to convert: " ++ e)
          else CompatResult.plain false))
    ∧ (f.isCallable = true → f.sigOk = true → f.sourceOk = true →
        ∃ r, is_function_schema_compatible f true v = Except.ok r) := by
  refine ⟨fun hc hs hsrc hemp => ?_, fun e he => ?_,
    fun hc hs hsrc => ⟨_, compat_run f true v hc hs hsrc⟩⟩
  · rw [compat_run f true v hc hs hsrc, hemp]
    simp
  · unfold andParseStep
    rw [he]

/-- C8 witness: the compatible worked example is routed through the
guarded conversion step, and the step wraps the conversion failure of
a signature-less function instead of propagating it. -/
theorem claim_C8_wrap_conversion_failure_witness :
    is_function_schema_compatible addNumbers true true =
      Except.ok (andParseStep addNumbers true)
    ∧ andParseStep noSigFunc true =
        CompatResult.withReason false
          ("Function is structurally valid but failed to convert: " ++
            ("Failed to get signature for function " ++ "g")) := by
  refine ⟨(claim_C8_wrap_conversion_failure addNumbers true).1 rfl rfl rfl (by decide), ?_⟩
  have h := (claim_C8_wrap_conversion_failure noSigFunc true).2.1
    ("Failed to get signature for function " ++ "g") rfl
  simpa using h

/-- C7: a present return annotation that is not a class or is a
reject-listed class contributes exactly one disqualifying reason
naming the return type; an absent return annotation never yields a
return-type reason. -/
theorem claim_C7_return_reason (f : Func) :
    (f.retAnn ≠ Ann.empty →
      f.retAnn.isTypeInstance = false ∨ f.retAnn.isRejectSubclass = true →
      (disqualifiersOf f).count (msgReturn (reprAnn f.retAnn)) = 1)
    ∧ (f.retAnn = Ann.empty → ∀ a, msgReturn a ∉ disqualifiersOf f) := by
  constructor
  · intro hne hcase
    unfold disqualifiersOf
    rw [retReason_some f hne hcase]
    rw [List.count_append, List.count_append, List.count_append]
    have h1 : (f.params.filterMap paramReason).count (msgReturn (reprAnn f.retAnn)) = 0 :=
      List.count_eq_zero.mpr (not_mem_paramReasons f _
        (by rw [head_msgReturn]; decide))
    have hvne : (varMsg == msgReturn (reprAnn f.retAnn)) = false := by
      rw [beq_eq_false_iff_ne]
      exact ne_of_head _ _ 'F' 'R' head_varMsg (head_msgReturn _) (by decide)
    have hine : (inputMsg == msgReturn (reprAnn f.retAnn)) = false := by
      rw [beq_eq_false_iff_ne]
      exact ne_of_head _ _ 'F' 'R' head_inputMsg (head_msgReturn _) (by decide)
    have h2 : (if f.params.any Param.isVariadic then [varMsg] else []).count
        (msgReturn (reprAnn f.retAnn)) = 0 := by
      by_cases hvar : f.params.any Param.isVariadic <;>
        simp [hvar, List.count_singleton, hvne]
    have h3 : (if f.sourceHasInput then [inputMsg] else []).count
        (msgReturn (reprAnn f.retAnn)) = 0 := by
      by_cases hin : f.sourceHasInput <;>
        simp [hin, List.count_singleton, hine]
    rw [h1, h2, h3]
    simp [List.count_singleton]
  · intro ha a
    unfold disqualifiersOf
    rw [retReason_none_of_empty f ha]
    intro hmem
    simp only [Option.toList, List.append_nil, List.mem_append] at hmem
    rcases hmem with (hmem | hmem) | hmem
    · exact not_mem_paramReasons f (msgReturn a)
        (by rw [head_msgReturn]; decide) hmem
    · have : msgReturn a = varMsg := by
        by_cases hvar : f.params.any Param.isVariadic <;> simp [hvar] at hmem
        exact hmem
      exact ne_of_head _ _ 'R' 'F' (head_msgReturn a) head_varMsg (by decide) this
    · have : msgReturn a = inputMsg := by
        by_cases hin : f.sourceHasInput <;> simp [hin] at hmem
        exact hmem
      exact ne_of_head _ _ 'R' 'F' (head_msgReturn a) head_inputMsg (by decide) this

/-- C7 witness: the tuple-returning function gets exactly one
return-type reason; the worked example (no return annotation) never
gets one (instantiated at the text of the tuple message). -/
theorem claim_C7_return_reason_witness :
    (disqualifiersOf retTupleFunc).count
      (msgReturn (reprAnn retTupleFunc.retAnn)) = 1
    ∧ msgReturn "<class tuple>" ∉ disqualifiersOf addNumbers :=
  ⟨(claim_C7_return_reason retTupleFunc).1 (by decide) (Or.inr rfl),
   (claim_C7_return_reason addNumbers).2 rfl "<class tuple>"⟩

/-- C2: whenever the checker returns a `(bool, reasons)` pair — on the
not-callable, no-signature, conversion-failure and ordinary verbose
paths alike — the boolean is true exactly when the reason string is
empty. -/
theorem claim_C2_compatible_iff_no_reasons (f : Func) (ap v b : Bool) (r : String)
    (h : is_function_schema_compatible f ap v =
      Except.ok (CompatResult.withReason b r)) :
    b = true ↔ r = "" := by
  cases hc : f.isCallable with
  | false =>
    simp [is_function_schema_compatible, hc] at h
    by_cases hv : v
    · rw [if_pos hv] at h
      injection h with h1 h2
      rw [← h1, ← h2]
      refine iff_of_false (by simp) ?_
      decide
    · rw [if_neg hv] at h
      simp at h
  | true =>
    cases hsg : f.sigOk with
    | false =>
      simp [is_function_schema_compatible, hc, hsg] at h
      by_cases hv : v
      · rw [if_pos hv] at h
        injection h with h1 h2
        rw [← h1, ← h2]
        exact iff_of_false (by simp) (ne_empty_of_head _ 'C' (head_sigMsg f.name))
      · rw [if_neg hv] at h
        simp at h
    | true =>
      cases hsrc : f.sourceOk with
      | false => simp [is_function_schema_compatible, hc, hsg, hsrc] at h
      | true =>
        rw [compat_run f ap v hc hsg hsrc] at h
        simp only [Except.ok.injEq] at h
        by_cases hap : ((disqualifiersOf f).isEmpty && ap) = true
        · rw [if_pos hap] at h
          cases hconv : function_to_schema f with
          | ok s =>
            rw [andParseStep_ok f v s hconv] at h
            simp at h
          | error e =>
            rw [andParseStep_error f v e hconv] at h
            by_cases hv : v
            · rw [if_pos hv] at h
              injection h with h1 h2
              rw [← h1, ← h2]
              exact iff_of_false (by simp)
                (ne_empty_of_head _ 'F' (head_wrapMsg e))
            · rw [if_neg hv] at h
              simp at h
        · rw [if_neg hap] at h
          by_cases hv : v
          · rw [if_pos hv] at h
            injection h with h1 h2
            by_cases hemp : (disqualifiersOf f).isEmpty = true
            · have hnil : disqualifiersOf f = [] := List.isEmpty_iff.mp hemp
              rw [← h1, hemp, ← h2, hnil]
              exact iff_of_true rfl rfl
            · have hne : disqualifiersOf f ≠ [] := by
                intro hx
                exact hemp (by simp [hx])
              rw [← h1, ← h2]
              refine iff_of_false ?_
                (intercalate_ne_empty _ hne (fun s hsm => disqualifier_ne_empty f s hsm))
              exact hemp
          · rw [if_neg hv] at h
            simp at h

/-- C2 witness: the verbose report for the untyped-parameter function
pairs `False` with its (non-empty) missing-annotation reason. -/
theorem claim_C2_compatible_iff_no_reasons_witness :
    false = true ↔ "Parameter \x27x\x27 is missing a type annotation." = "" :=
  claim_C2_compatible_iff_no_reasons untypedX false true false
    "Parameter \x27x\x27 is missing a type annotation." rfl

end FuncSchema
